import Mathlib

/-!
Verification of the Tracking & Notification Engine of the
Radiosonde-Telegram-Bot repository (src/notifier_EN.py; notifier_RO.py is
identical up to message strings).

The embedding is shallow: Python floats used only in order comparisons,
subtraction and division (altitudes, timestamps, velocities, wall-clock
times) are modelled as rationals; latitude/longitude, which feed the
transcendental haversine formula, are modelled as reals.  ISO timestamp
strings are modelled directly as their time value in seconds (the code
parses them with `datetime.fromisoformat` and only ever subtracts them).
Python dictionaries are modelled as functions into `Option`.  The external
effects of `save_sonde_data` (history append) and `send_telegram_message`
(notification) are modelled as emitted `(serial, event_type)` records.
-/

namespace Radiosonde

/-- Monitoring configuration (`config["monitoring"]`), immutable. -/
structure MonitoringConfig where
  target_latitude : ℝ
  target_longitude : ℝ
  radius_km : ℝ
  min_altitude_m : ℚ
  max_altitude_m : ℚ

/-- Notification settings (`config["notification_settings"]`). -/
structure NotificationSettings where
  update_interval_minutes : ℚ

/-- One incoming report (`sonde_data` dict).  Fields read by
`process_sonde_data`; every one of them may be absent in the raw message. -/
structure SondeData where
  serial : Option String
  lat : Option ℝ
  lon : Option ℝ
  alt : Option ℚ
  datetime : Option ℚ
  vel_v : Option ℚ
  rs41_subframe : Option String

/-- One sample of the altitude history kept by `analyze_sonde_trend`. -/
structure HistPoint where
  altitude : ℚ
  timestamp : ℚ
  time_received : ℚ
deriving DecidableEq

/-- The per-entity tracking state: the dict stored in
`self.detected_sonde[serial]`.  In the Python code the `altitude_history`
key is absent until `analyze_sonde_trend` first writes it and is read with
`.get("altitude_history", [])`; it is modelled as a list that is `[]`
when the key would be absent. -/
structure SondeEntry where
  first_detected : ℚ
  last_position : ℝ × ℝ
  last_altitude : ℚ
  last_update_time : ℚ
  last_sonde_time : ℚ
  is_descending : Bool
  vertical_velocity : ℚ
  altitude_history : List HistPoint

/-- The notifier's mutable tracking state: `self.detected_sonde` and
`self.last_notification_time`. -/
structure NotifierState where
  detected_sonde : String → Option SondeEntry
  last_notification_time : String → Option ℚ

/-- `math.radians`. -/
noncomputable def radians (x : ℝ) : ℝ := x * Real.pi / 180

open Classical in
/-- `math.atan2 y x`, written out by quadrants over `Real.arctan`
(with `atan2 0 0 = 0`, as in CPython). -/
noncomputable def atan2 (y x : ℝ) : ℝ :=
  if 0 < x then Real.arctan (y / x)
  else if x < 0 ∧ 0 ≤ y then Real.arctan (y / x) + Real.pi
  else if x < 0 ∧ y < 0 then Real.arctan (y / x) - Real.pi
  else if x = 0 ∧ 0 < y then Real.pi / 2
  else if x = 0 ∧ y < 0 then -(Real.pi / 2)
  else 0

/-- `RadiosondeNotifier.haversine_distance`: great-circle distance with
Earth radius 6371 km. -/
noncomputable def haversine_distance (lat1 lon1 lat2 lon2 : ℝ) : ℝ :=
  let R : ℝ := 6371
  let lat1_rad := radians lat1
  let lon1_rad := radians lon1
  let lat2_rad := radians lat2
  let lon2_rad := radians lon2
  let dlat := lat2_rad - lat1_rad
  let dlon := lon2_rad - lon1_rad
  let a := Real.sin (dlat / 2) ^ 2 +
    Real.cos lat1_rad * Real.cos lat2_rad * Real.sin (dlon / 2) ^ 2
  let c := 2 * atan2 (Real.sqrt a) (Real.sqrt (1 - a))
  R * c

/-- `RadiosondeNotifier.is_within_radius`: returns the pair
`(distance <= radius_km, distance)`. -/
noncomputable def is_within_radius (cfg : MonitoringConfig) (sonde_lat sonde_lon : ℝ) :
    Prop × ℝ :=
  let distance :=
    haversine_distance cfg.target_latitude cfg.target_longitude sonde_lat sonde_lon
  (distance ≤ cfg.radius_km, distance)

/-- `RadiosondeNotifier.is_within_altitude`: `False` when altitude is `None`,
else `min_alt <= altitude <= max_alt`. -/
def is_within_altitude (cfg : MonitoringConfig) (altitude : Option ℚ) : Bool :=
  match altitude with
  | none => false
  | some alt => decide (cfg.min_altitude_m ≤ alt ∧ alt ≤ cfg.max_altitude_m)

/-- `RadiosondeNotifier.is_descending` (the rate-based check).  The Python
parameter `current_time` (system time) is accepted but never used, exactly
as in the source.  The `previous_altitude is None` / `previous_time is None`
guards of the source are vacuous here because every write to the store sets
both fields, which the record type makes intrinsic. -/
def is_descending (detected_sonde : String → Option SondeEntry) (serial : String)
    (current_altitude : ℚ) (current_time : ℚ) (sonde_timestamp : ℚ) : Bool :=
  match detected_sonde serial with
  | none => false
  | some previous_data =>
    let previous_altitude := previous_data.last_altitude
    let previous_time := previous_data.last_sonde_time
    let time_diff := sonde_timestamp - previous_time
    if time_diff > 600 ∨ time_diff ≤ 0 then false
    else
      let altitude_diff := previous_altitude - current_altitude
      let descent_rate := altitude_diff / time_diff
      decide (altitude_diff ≥ 50 ∧ descent_rate > 1 ∧ time_diff < 300)

/-- The two-signal descent classification of `process_sonde_data`
(lines 400-418): vertical velocity below -1.0 m/s wins immediately,
otherwise the rate check runs only for an already-tracked serial. -/
def descent_verdict (detected_sonde : String → Option SondeEntry) (serial : String)
    (alt : ℚ) (now : ℚ) (sonde_time : ℚ) (velocity_v : ℚ) : Bool :=
  if velocity_v < -1 then true
  else if (detected_sonde serial).isSome then
    is_descending detected_sonde serial alt now sonde_time
  else false

/-- `RadiosondeNotifier.should_send_notification`.  `current_time` stands
for the `time.time()` call in the source; a missing
`last_notification_time` entry reads as `0` via `.get(serial, 0)`. -/
def should_send_notification (last_notification_time : String → Option ℚ)
    (update_interval_minutes : ℚ) (current_time : ℚ)
    (serial : String) (event_type : String) : Bool :=
  if event_type = "initial" then true
  else if event_type = "update" then
    let last_time := (last_notification_time serial).getD 0
    let update_interval := update_interval_minutes * 60
    decide (current_time - last_time ≥ update_interval)
  else if event_type = "landing" then true
  else false

/-- `RadiosondeNotifier.cleanup_old_entries`: drop every serial whose
`first_detected` lies more than 86400 s in the past, from both maps. -/
def cleanup_old_entries (current_time : ℚ) (s : NotifierState) : NotifierState :=
  { detected_sonde := fun serial =>
      match s.detected_sonde serial with
      | some data =>
        if current_time - data.first_detected > 86400 then none else some data
      | none => none
    last_notification_time := fun serial =>
      match s.detected_sonde serial with
      | some data =>
        if current_time - data.first_detected > 86400 then none
        else s.last_notification_time serial
      | none => s.last_notification_time serial }

/-- The `self.detected_sonde[serial].update({...})` block of
`process_sonde_data` (guarded by `serial in self.detected_sonde`). -/
def update_tracking (detected_sonde : String → Option SondeEntry) (serial : String)
    (lat lon : ℝ) (alt now sonde_time : ℚ) (is_desc : Bool) (velocity_v : ℚ) :
    String → Option SondeEntry :=
  match detected_sonde serial with
  | none => detected_sonde
  | some e => fun k =>
      if k = serial then
        some { e with
          last_position := (lat, lon)
          last_altitude := alt
          last_update_time := now
          last_sonde_time := sonde_time
          is_descending := is_desc
          vertical_velocity := velocity_v }
      else detected_sonde k

/-- Result of one `process_sonde_data` call: the new state plus the
externally visible effects, as `(serial, event_type)` records:
`history_events` for `save_sonde_data` appends and `notifications` for
`send_telegram_message` calls. -/
structure ProcessResult where
  state : NotifierState
  history_events : List (String × String)
  notifications : List (String × String)

/-- Lines 456-485 of `process_sonde_data`, reached with
`event_type in ["initial", "update", "landing"]`: save to history, consult
the throttle, on a positive answer notify and record the notification
time, refresh the tracking entry, then run the cleanup sweep. -/
def emit_event (ns : NotificationSettings) (now : ℚ) (s : NotifierState)
    (serial : String) (lat lon : ℝ) (alt sonde_time velocity_v : ℚ)
    (is_desc : Bool) (event_type : String) : ProcessResult :=
  let send := should_send_notification s.last_notification_time
    ns.update_interval_minutes now serial event_type
  let last_notification := if send
    then (fun k => if k = serial then some now else s.last_notification_time k)
    else s.last_notification_time
  let store2 := update_tracking s.detected_sonde serial lat lon alt now sonde_time
    is_desc velocity_v
  { state := cleanup_old_entries now
      { detected_sonde := store2, last_notification_time := last_notification }
    history_events := [(serial, event_type)]
    notifications := if send then [(serial, event_type)] else [] }

/-- The body of `process_sonde_data` once the report has passed the
radius+altitude gate (lines 400-485).  A non-descending tracked serial at
altitude >= 100 takes the silent-refresh branch, which `return`s before
the cleanup sweep. -/
def process_qualifying (ns : NotificationSettings) (now : ℚ) (s : NotifierState)
    (serial : String) (lat lon : ℝ) (alt sonde_time velocity_v : ℚ) : ProcessResult :=
  let is_desc := descent_verdict s.detected_sonde serial alt now sonde_time velocity_v
  match s.detected_sonde serial with
  | none =>
    let entry : SondeEntry :=
      { first_detected := now
        last_position := (lat, lon)
        last_altitude := alt
        last_update_time := now
        last_sonde_time := sonde_time
        is_descending := is_desc
        vertical_velocity := velocity_v
        altitude_history := [] }
    let store1 := fun k => if k = serial then some entry else s.detected_sonde k
    emit_event ns now { s with detected_sonde := store1 }
      serial lat lon alt sonde_time velocity_v is_desc "initial"
  | some _ =>
    if alt < 100 then
      emit_event ns now s serial lat lon alt sonde_time velocity_v true "landing"
    else if is_desc then
      emit_event ns now s serial lat lon alt sonde_time velocity_v is_desc "update"
    else
      { state :=
          { s with detected_sonde := (update_tracking s.detected_sonde serial
              lat lon alt now sonde_time is_desc velocity_v) }
        history_events := []
        notifications := [] }

/-- The `rs41_subframe` guard of `process_sonde_data`:
`"rs41_subframe" in sonde_data and len(sonde_data["rs41_subframe"]) > 1000`. -/
def rs41_large : Option String → Bool
  | some sub => decide (sub.length > 1000)
  | none => false

open Classical in
/-- `RadiosondeNotifier.process_sonde_data`.  `now` stands for the
`time.time()` calls made during the invocation.  Early returns: missing or
empty serial, oversized `rs41_subframe`, and missing lat/lon/alt/datetime
all leave the state untouched and skip even the cleanup sweep; a report
failing the radius+altitude gate only runs the cleanup sweep. -/
noncomputable def process_sonde_data (cfg : MonitoringConfig)
    (ns : NotificationSettings) (now : ℚ) (s : NotifierState)
    (sonde_data : SondeData) : ProcessResult :=
  match sonde_data.serial with
  | none => ⟨s, [], []⟩
  | some serial =>
    if serial = "" then ⟨s, [], []⟩
    else if rs41_large sonde_data.rs41_subframe then ⟨s, [], []⟩
    else
      match sonde_data.lat, sonde_data.lon, sonde_data.alt, sonde_data.datetime with
      | some lat, some lon, some alt, some sonde_time =>
        let velocity_v := sonde_data.vel_v.getD 0
        if (is_within_radius cfg lat lon).1 ∧ is_within_altitude cfg (some alt) = true
        then process_qualifying ns now s serial lat lon alt sonde_time velocity_v
        else ⟨cleanup_old_entries now s, [], []⟩
      | _, _, _, _ => ⟨s, [], []⟩

/-- The append-and-cap step of `analyze_sonde_trend`:
`history.append(...); if len(history) > 10: history.pop(0)`. -/
def trend_append (history : List HistPoint) (p : HistPoint) : List HistPoint :=
  let h := history ++ [p]
  if h.length > 10 then h.tail else h

/-- The summation loop of `analyze_sonde_trend` over consecutive history
points, accumulating `(total_descent, total_time)` for pairs with a
positive time difference. -/
def trend_sums : List HistPoint → ℚ × ℚ
  | [] => (0, 0)
  | [_] => (0, 0)
  | a :: b :: rest =>
    let s := trend_sums (b :: rest)
    let time_diff := b.timestamp - a.timestamp
    if time_diff > 0 then (s.1 + (a.altitude - b.altitude), s.2 + time_diff) else s

/-- `RadiosondeNotifier.analyze_sonde_trend`: appends the current sample to
the serial's capped altitude history (storing it back), then reports
whether the average descent rate over the history exceeds 0.5 m/s.
Returns the updated store together with the boolean verdict.  This method
is defined in both source files but never called by `process_sonde_data`
or anything else. -/
def analyze_sonde_trend (detected_sonde : String → Option SondeEntry)
    (serial : String) (current_alt current_time : Option ℚ) (now : ℚ) :
    (String → Option SondeEntry) × Bool :=
  match detected_sonde serial with
  | none => (detected_sonde, false)
  | some entry =>
    match current_alt, current_time with
    | some ca, some ct =>
      let history := trend_append entry.altitude_history ⟨ca, ct, now⟩
      let store1 := fun k =>
        if k = serial then some { entry with altitude_history := history }
        else detected_sonde k
      if history.length < 3 then (store1, false)
      else
        let sums := trend_sums history
        if sums.2 > 0 then (store1, decide (sums.1 / sums.2 > 0.5))
        else (store1, false)
    | _, _ => (detected_sonde, false)

/-- Connection-manager state: `self.sondehub_connected` and
`self.sondehub_reconnect_attempts`. -/
structure ConnState where
  sondehub_connected : Bool
  sondehub_reconnect_attempts : ℕ

/-- `self.max_reconnect_attempts = 10`. -/
def max_reconnect_attempts : ℕ := 10

/-- `self.reconnect_delay = 30` seconds. -/
def reconnect_delay : ℚ := 30

/-- `RadiosondeNotifier.on_connect`: sets connected and resets the attempt
counter. -/
def on_connect (_ : ConnState) : ConnState :=
  { sondehub_connected := true, sondehub_reconnect_attempts := 0 }

/-- `RadiosondeNotifier.on_disconnect`: clears connected, leaves the
attempt counter alone. -/
def on_disconnect (s : ConnState) : ConnState :=
  { s with sondehub_connected := false }

/-- `RadiosondeNotifier.reconnect_sondehub` up to the `connect_to_sondehub`
call: `none` when the attempt budget is exhausted (no attempt is made),
otherwise the backoff delay `reconnect_delay * 2 ** attempts` together
with the state after the counter increment. -/
def reconnect_step (s : ConnState) : Option (ℚ × ConnState) :=
  if s.sondehub_reconnect_attempts ≥ max_reconnect_attempts then none
  else some (reconnect_delay * 2 ^ s.sondehub_reconnect_attempts,
    { s with sondehub_reconnect_attempts := s.sondehub_reconnect_attempts + 1 })

/-- External events driving the connection state machine: a call to
`reconnect_sondehub` whose `connect_to_sondehub` outcome is `success`, a
SondeHub `on_connect` callback, a SondeHub `on_disconnect` callback. -/
inductive ConnEvent
  | reconnect (success : Bool)
  | connectCb
  | disconnectCb
deriving DecidableEq

/-- Apply one event; the boolean records whether a connection attempt was
actually made.  `connect_to_sondehub` itself sets `sondehub_connected`
according to its outcome (lines 843 and 848); the counter reset happens
only in the `on_connect` callback. -/
def conn_apply : ConnState → ConnEvent → ConnState × Bool
  | s, .connectCb => (on_connect s, false)
  | s, .disconnectCb => (on_disconnect s, false)
  | s, .reconnect success =>
    match reconnect_step s with
    | none => (s, false)
    | some (_, s1) =>
      (if success then { s1 with sondehub_connected := true }
       else { s1 with sondehub_connected := false }, true)

/-- Run a list of events, counting how many connection attempts occur. -/
def conn_run : ConnState → List ConnEvent → ConnState × ℕ
  | s, [] => (s, 0)
  | s, e :: rest =>
    let step := conn_apply s e
    let tail := conn_run step.1 rest
    (tail.1, (if step.2 then 1 else 0) + tail.2)

/-! ### Helper lemmas -/

theorem atan2_zero_one : atan2 0 1 = 0 := by
  unfold atan2
  rw [if_pos (by norm_num : (0:ℝ) < 1)]
  simp

/-- The haversine distance from a point to itself is zero. -/
theorem haversine_self (lat lon : ℝ) : haversine_distance lat lon lat lon = 0 := by
  unfold haversine_distance
  simp [atan2_zero_one]

/-- Reduction of `process_sonde_data` to its qualifying branch when the
serial is usable, the `rs41_subframe` guard does not fire, all four
required fields are present, and the radius+altitude gate passes. -/
theorem process_eq_qualifying (cfg : MonitoringConfig) (ns : NotificationSettings)
    (now : ℚ) (s : NotifierState) (serial : String) (lat lon : ℝ)
    (alt sonde_time : ℚ) (vv : Option ℚ) (rs : Option String)
    (hser : ¬ serial = "") (hrs : rs41_large rs = false)
    (hr : (is_within_radius cfg lat lon).1)
    (ha : is_within_altitude cfg (some alt) = true) :
    process_sonde_data cfg ns now s
        ⟨some serial, some lat, some lon, some alt, some sonde_time, vv, rs⟩
      = process_qualifying ns now s serial lat lon alt sonde_time (vv.getD 0) := by
  unfold process_sonde_data
  simp only [hrs, if_neg hser, Bool.false_eq_true, if_false]
  rw [if_pos ⟨hr, ha⟩]

/-- Concrete monitoring configuration used by the concrete instances:
center (0, 0), radius 1 km, altitude band [0, 30000] m. -/
noncomputable def cfg0 : MonitoringConfig :=
  { target_latitude := 0, target_longitude := 0, radius_km := 1,
    min_altitude_m := 0, max_altitude_m := 30000 }

/-- Concrete notification settings: 30-minute update interval. -/
def ns0 : NotificationSettings := { update_interval_minutes := 30 }

/-- The empty notifier state. -/
def state0 : NotifierState :=
  { detected_sonde := fun _ => none, last_notification_time := fun _ => none }

/-- A report at the configured center of `cfg0` passes the radius gate. -/
theorem cfg0_radius_ok : (is_within_radius cfg0 0 0).1 := by
  show haversine_distance cfg0.target_latitude cfg0.target_longitude 0 0 ≤ cfg0.radius_km
  show haversine_distance 0 0 0 0 ≤ (1 : ℝ)
  rw [haversine_self]
  norm_num

/-! ### Claims -/

/-- Claim C3: for a tracked entity with a prior state, the rate-based
descent check returns false whenever `time_diff = current source timestamp
minus previous source timestamp` lies outside `(0, 600]` seconds, and
otherwise returns true iff the altitude dropped by at least 50 m, the
descent rate exceeds 1.0 m/s, and `time_diff < 300` s. -/
theorem C3_rate_check (store : String → Option SondeEntry) (serial : String)
    (prev : SondeEntry) (alt ct st : ℚ) (hprev : store serial = some prev) :
    (st - prev.last_sonde_time ≤ 0 ∨ st - prev.last_sonde_time > 600 →
      is_descending store serial alt ct st = false) ∧
    (0 < st - prev.last_sonde_time → st - prev.last_sonde_time ≤ 600 →
      (is_descending store serial alt ct st = true ↔
        prev.last_altitude - alt ≥ 50 ∧
        (prev.last_altitude - alt) / (st - prev.last_sonde_time) > 1 ∧
        st - prev.last_sonde_time < 300)) := by
  have hform : is_descending store serial alt ct st =
      (if st - prev.last_sonde_time > 600 ∨ st - prev.last_sonde_time ≤ 0 then false
       else decide (prev.last_altitude - alt ≥ 50 ∧
         (prev.last_altitude - alt) / (st - prev.last_sonde_time) > 1 ∧
         st - prev.last_sonde_time < 300)) := by
    unfold is_descending
    rw [hprev]
  rw [hform]
  constructor
  · intro h
    rw [if_pos (by tauto)]
  · intro h1 h2
    rw [if_neg (by push_neg; exact ⟨h2, h1⟩)]
    simp

/-- An already-descending example for the witnesses: prior altitude 1000 m
at source time 0. -/
def entryA : SondeEntry :=
  { first_detected := 0, last_position := (0, 0), last_altitude := 1000,
    last_update_time := 0, last_sonde_time := 0, is_descending := false,
    vertical_velocity := 0, altitude_history := [] }

/-- A one-entry store holding `entryA` under serial "A". -/
def storeA : String → Option SondeEntry :=
  fun k => if k = "A" then some entryA else none

/-- Witness for C3, at the spec's own example points: prior altitude 1000
at t = 0; altitude 940 at t = 120 (rate 0.5 m/s) is not descending, while
altitude 900 at t = 80 (rate 1.25 m/s) is. -/
theorem C3_rate_check_witness :
    storeA "A" = some entryA ∧
    (0:ℚ) < 120 - entryA.last_sonde_time ∧ 120 - entryA.last_sonde_time ≤ 600 ∧
    (is_descending storeA "A" 940 1000 120 = true ↔
      entryA.last_altitude - 940 ≥ 50 ∧
      (entryA.last_altitude - 940) / (120 - entryA.last_sonde_time) > 1 ∧
      120 - entryA.last_sonde_time < 300) ∧
    is_descending storeA "A" 940 1000 120 = false ∧
    (is_descending storeA "A" 900 1000 80 = true ↔
      entryA.last_altitude - 900 ≥ 50 ∧
      (entryA.last_altitude - 900) / (80 - entryA.last_sonde_time) > 1 ∧
      80 - entryA.last_sonde_time < 300) ∧
    is_descending storeA "A" 900 1000 80 = true := by
  refine ⟨rfl, by norm_num [entryA], by norm_num [entryA],
    (C3_rate_check storeA "A" entryA 940 1000 120 rfl).2 (by norm_num [entryA])
      (by norm_num [entryA]), by norm_num [is_descending, storeA, entryA],
    (C3_rate_check storeA "A" entryA 900 1000 80 rfl).2 (by norm_num [entryA])
      (by norm_num [entryA]), by norm_num [is_descending, storeA, entryA]⟩

/-- Claim C4: vertical velocity below -1.0 m/s marks descent immediately,
independently of the tracking store (the rate signal is short-circuited);
a report without a `vel_v` field defaults to 0 and can never trigger the
velocity signal, so only the rate signal can mark descent for it; and for
an untracked serial the verdict is exactly the velocity signal. -/
theorem C4_velocity_signal :
    (∀ (store : String → Option SondeEntry) (serial : String) (alt now st vv : ℚ),
      vv < -1 → descent_verdict store serial alt now st vv = true) ∧
    (∀ (store : String → Option SondeEntry) (serial : String) (alt now st : ℚ),
      descent_verdict store serial alt now st ((none : Option ℚ).getD 0) = true →
      (store serial).isSome = true ∧ is_descending store serial alt now st = true) ∧
    (∀ (store : String → Option SondeEntry) (serial : String) (alt now st vv : ℚ),
      store serial = none →
      (descent_verdict store serial alt now st vv = true ↔ vv < -1)) := by
  refine ⟨?_, ?_, ?_⟩
  · intro store serial alt now st vv h
    unfold descent_verdict
    rw [if_pos h]
  · intro store serial alt now st h
    unfold descent_verdict at h
    rw [if_neg (by norm_num : ¬ ((none : Option ℚ).getD 0) < -1)] at h
    by_cases hs : (store serial).isSome = true
    · rw [if_pos hs] at h
      exact ⟨hs, h⟩
    · rw [if_neg hs] at h
      exact absurd h (by simp)
  · intro store serial alt now st vv hnone
    unfold descent_verdict
    rw [hnone]
    by_cases hv : vv < -1
    · simp [hv]
    · simp [hv]

/-- Witness for C4: velocity -2 m/s marks descent on an empty store; the
default velocity 0 on store `storeA` forces the rate signal; an untracked
serial follows the velocity signal alone. -/
theorem C4_velocity_signal_witness :
    ((-2 : ℚ) < -1 ∧ descent_verdict (fun _ => none) "A" 0 0 0 (-2) = true) ∧
    (descent_verdict storeA "A" 900 1000 80 ((none : Option ℚ).getD 0) = true ∧
      (storeA "A").isSome = true ∧ is_descending storeA "A" 900 1000 80 = true) ∧
    (storeA "B" = none ∧
      (descent_verdict storeA "B" 0 0 0 (-2) = true ↔ (-2 : ℚ) < -1)) := by
  refine ⟨⟨by norm_num, C4_velocity_signal.1 (fun _ => none) "A" 0 0 0 (-2) (by norm_num)⟩,
    ?_, rfl, C4_velocity_signal.2.2 storeA "B" 0 0 0 (-2) rfl⟩
  have h : descent_verdict storeA "A" 900 1000 80 ((none : Option ℚ).getD 0) = true := by
    norm_num [descent_verdict, is_descending, storeA, entryA]
  exact ⟨h, C4_velocity_signal.2.1 storeA "A" 900 1000 80 h⟩

/-- Evaluation of the throttle on an "update" event. -/
theorem should_send_update_eq (lnt : String → Option ℚ) (iv now : ℚ) (serial : String) :
    should_send_notification lnt iv now serial "update"
      = decide (now - (lnt serial).getD 0 ≥ iv * 60) := by
  unfold should_send_notification
  rw [if_neg (by decide : ¬ ("update" = "initial")), if_pos rfl]

/-- Claim C5: the throttle always answers true for "initial" and
"landing"; for "update" it answers true iff `now - last ≥ interval * 60`
(a missing entry reads as 0, so for any wall-clock `now` at least one
interval after the epoch it counts as already elapsed); the query itself
is a pure function of the state, and in `emit_event` the caller records
`last_notification_time[serial] = now` only on a true answer — on a false
answer nothing is sent and the serial's recorded time is either untouched
or removed by the eviction sweep, never set. -/
theorem C5_throttle :
    (∀ (lnt : String → Option ℚ) (iv now : ℚ) (serial : String),
      should_send_notification lnt iv now serial "initial" = true ∧
      should_send_notification lnt iv now serial "landing" = true) ∧
    (∀ (lnt : String → Option ℚ) (iv now t : ℚ) (serial : String),
      lnt serial = some t →
      (should_send_notification lnt iv now serial "update" = true ↔ now - t ≥ iv * 60)) ∧
    (∀ (lnt : String → Option ℚ) (iv now : ℚ) (serial : String),
      lnt serial = none → iv * 60 ≤ now →
      should_send_notification lnt iv now serial "update" = true) ∧
    (∀ (ns : NotificationSettings) (now : ℚ) (s : NotifierState) (serial : String)
      (lat lon : ℝ) (alt st vv : ℚ) (d : Bool) (et : String),
      should_send_notification s.last_notification_time ns.update_interval_minutes
        now serial et = false →
      (emit_event ns now s serial lat lon alt st vv d et).notifications = [] ∧
      ((emit_event ns now s serial lat lon alt st vv d et).state.last_notification_time
          serial = s.last_notification_time serial ∨
       (emit_event ns now s serial lat lon alt st vv d et).state.last_notification_time
          serial = none)) := by
  refine ⟨?_, ?_, ?_, ?_⟩
  · intro lnt iv now serial
    exact ⟨rfl, rfl⟩
  · intro lnt iv now t serial h
    rw [should_send_update_eq, h]
    simp [ge_iff_le]
  · intro lnt iv now serial h hiv
    rw [should_send_update_eq, h]
    simp only [Option.getD_none, sub_zero, ge_iff_le, decide_eq_true_eq]
    exact hiv
  · intro ns now s serial lat lon alt st vv d et h
    unfold emit_event
    rw [h]
    simp only [Bool.false_eq_true, if_false]
    refine ⟨trivial, ?_⟩
    unfold cleanup_old_entries
    dsimp only
    cases hx : update_tracking s.detected_sonde serial lat lon alt now st d vv serial with
    | none => left; rfl
    | some data =>
      by_cases hold : now - data.first_detected > 86400
      · right
        show (if now - data.first_detected > 86400 then (none : Option ℚ)
          else s.last_notification_time serial) = none
        rw [if_pos hold]
      · left
        show (if now - data.first_detected > 86400 then (none : Option ℚ)
          else s.last_notification_time serial) = s.last_notification_time serial
        rw [if_neg hold]

/-- Witness for C5: a fresh serial always notifies for initial/landing; a
serial notified 100 s ago with a 30-minute interval is throttled for
updates; a never-notified serial with wall-clock `now` past one interval
notifies; and a throttled `emit_event` sends nothing and records nothing. -/
theorem C5_throttle_witness :
    (should_send_notification state0.last_notification_time 30 1000000 "X" "initial" = true ∧
     should_send_notification state0.last_notification_time 30 1000000 "X" "landing" = true) ∧
    ((fun k => if k = "X" then some (999900 : ℚ) else none) "X" = some 999900 ∧
     (should_send_notification (fun k => if k = "X" then some (999900 : ℚ) else none)
        30 1000000 "X" "update" = true ↔ (1000000 : ℚ) - 999900 ≥ 30 * 60) ∧
     should_send_notification (fun k => if k = "X" then some (999900 : ℚ) else none)
        30 1000000 "X" "update" = false) ∧
    (state0.last_notification_time "X" = none ∧ (30 : ℚ) * 60 ≤ 1000000 ∧
     should_send_notification state0.last_notification_time 30 1000000 "X" "update" = true) ∧
    (should_send_notification
        (NotifierState.mk (fun _ => none) (fun k => if k = "X" then some 999900 else none)).last_notification_time
        (NotificationSettings.mk 30).update_interval_minutes 1000000 "X" "update" = false ∧
     (emit_event (NotificationSettings.mk 30) 1000000
        (NotifierState.mk (fun _ => none) (fun k => if k = "X" then some 999900 else none))
        "X" 0 0 500 0 0 false "update").notifications = [] ∧
     ((emit_event (NotificationSettings.mk 30) 1000000
        (NotifierState.mk (fun _ => none) (fun k => if k = "X" then some 999900 else none))
        "X" 0 0 500 0 0 false "update").state.last_notification_time "X" =
        (NotifierState.mk (fun _ => none) (fun k => if k = "X" then some 999900 else none)).last_notification_time "X" ∨
      (emit_event (NotificationSettings.mk 30) 1000000
        (NotifierState.mk (fun _ => none) (fun k => if k = "X" then some 999900 else none))
        "X" 0 0 500 0 0 false "update").state.last_notification_time "X" = none)) := by
  have hth : should_send_notification
      (fun k => if k = "X" then some (999900 : ℚ) else none) 30 1000000 "X" "update" = false := by
    rw [should_send_update_eq]
    norm_num
  refine ⟨C5_throttle.1 state0.last_notification_time 30 1000000 "X",
    ⟨rfl, C5_throttle.2.1 (fun k => if k = "X" then some (999900 : ℚ) else none)
      30 1000000 999900 "X" rfl, hth⟩,
    ⟨rfl, by norm_num,
      C5_throttle.2.2.1 state0.last_notification_time 30 1000000 "X" rfl (by norm_num)⟩,
    ⟨hth, C5_throttle.2.2.2 (NotificationSettings.mk 30) 1000000
      (NotifierState.mk (fun _ => none) (fun k => if k = "X" then some 999900 else none))
      "X" 0 0 500 0 0 false "update" hth⟩⟩

/-- Claim C6: the cleanup sweep removes, from both maps, every serial whose
`first_detected` lies more than 86400 s in the past — the criterion never
looks at `last_update_time`, so an entity updated one second ago is still
evicted — and keeps (unchanged) every serial whose `first_detected` is
within the last 86400 s. -/
theorem C6_cleanup_sweep (now : ℚ) (s : NotifierState) (serial : String)
    (e : SondeEntry) (he : s.detected_sonde serial = some e) :
    (now - e.first_detected > 86400 →
      (cleanup_old_entries now s).detected_sonde serial = none ∧
      (cleanup_old_entries now s).last_notification_time serial = none) ∧
    (now - e.first_detected ≤ 86400 →
      (cleanup_old_entries now s).detected_sonde serial = some e ∧
      (cleanup_old_entries now s).last_notification_time serial =
        s.last_notification_time serial) := by
  unfold cleanup_old_entries
  dsimp only
  rw [he]
  constructor
  · intro h
    refine ⟨?_, ?_⟩
    · show (if now - e.first_detected > 86400 then none else some e) = none
      rw [if_pos h]
    · show (if now - e.first_detected > 86400 then (none : Option ℚ)
        else s.last_notification_time serial) = none
      rw [if_pos h]
  · intro h
    refine ⟨?_, ?_⟩
    · show (if now - e.first_detected > 86400 then none else some e) = some e
      rw [if_neg (not_lt.mpr h)]
    · show (if now - e.first_detected > 86400 then (none : Option ℚ)
        else s.last_notification_time serial) = s.last_notification_time serial
      rw [if_neg (not_lt.mpr h)]

/-- An entry first detected at time 0 and updated at time 99999, for the
C6 witness. -/
def entryOld : SondeEntry :=
  { first_detected := 0, last_position := (0, 0), last_altitude := 4000,
    last_update_time := 99999, last_sonde_time := 99990, is_descending := false,
    vertical_velocity := 0, altitude_history := [] }

/-- An entry first detected at time 90000, for the C6 witness. -/
def entryFresh : SondeEntry :=
  { first_detected := 90000, last_position := (0, 0), last_altitude := 4000,
    last_update_time := 99000, last_sonde_time := 99000, is_descending := false,
    vertical_velocity := 0, altitude_history := [] }

/-- A two-entry state for the C6 witness: "OLD" was first detected 100000 s
ago but updated 1 s ago, "FRESH" was first detected 10000 s ago. -/
def stateC6 : NotifierState :=
  { detected_sonde := fun k =>
      if k = "OLD" then some entryOld else if k = "FRESH" then some entryFresh else none
    last_notification_time := fun k => if k = "OLD" then some 99999 else none }

/-- Witness for C6 at wall-clock time 100000: "OLD" (first detected 100000
s ago, updated 1 s ago) is evicted from both maps; "FRESH" survives. -/
theorem C6_cleanup_sweep_witness :
    stateC6.detected_sonde "OLD" = some entryOld ∧
    (100000 : ℚ) - entryOld.first_detected > 86400 ∧
    entryOld.last_update_time = 100000 - 1 ∧
    ((cleanup_old_entries 100000 stateC6).detected_sonde "OLD" = none ∧
     (cleanup_old_entries 100000 stateC6).last_notification_time "OLD" = none) ∧
    stateC6.detected_sonde "FRESH" = some entryFresh ∧
    (100000 : ℚ) - entryFresh.first_detected ≤ 86400 ∧
    ((cleanup_old_entries 100000 stateC6).detected_sonde "FRESH" = some entryFresh ∧
     (cleanup_old_entries 100000 stateC6).last_notification_time "FRESH" =
       stateC6.last_notification_time "FRESH") := by
  refine ⟨rfl, by norm_num [entryOld], by norm_num [entryOld],
    (C6_cleanup_sweep 100000 stateC6 "OLD" entryOld rfl).1 (by norm_num [entryOld]),
    rfl, by norm_num [entryFresh],
    (C6_cleanup_sweep 100000 stateC6 "FRESH" entryFresh rfl).2 (by norm_num [entryFresh])⟩

/-- Claim C7: the radius+altitude gate used by `process_sonde_data` holds
iff the haversine great-circle distance (Earth radius 6371 km) from the
configured center is at most `radius_km` and the altitude is present and
within `[min_altitude_m, max_altitude_m]`; a missing altitude is excluded. -/
theorem C7_within_region (cfg : MonitoringConfig) (lat lon : ℝ) (alt : Option ℚ) :
    ((is_within_radius cfg lat lon).1 ∧ is_within_altitude cfg alt = true) ↔
    (∃ a, alt = some a ∧
      haversine_distance cfg.target_latitude cfg.target_longitude lat lon ≤
        cfg.radius_km ∧
      cfg.min_altitude_m ≤ a ∧ a ≤ cfg.max_altitude_m) := by
  cases alt with
  | none => simp [is_within_altitude]
  | some a =>
    show (haversine_distance cfg.target_latitude cfg.target_longitude lat lon ≤
        cfg.radius_km ∧ is_within_altitude cfg (some a) = true) ↔ _
    simp only [is_within_altitude, decide_eq_true_eq, Option.some.injEq]
    constructor
    · rintro ⟨hd, hmin, hmax⟩
      exact ⟨a, rfl, hd, hmin, hmax⟩
    · rintro ⟨b, hb, hd, hmin, hmax⟩
      cases hb
      exact ⟨hd, hmin, hmax⟩

/-- If the attempt budget is exhausted, one non-connect-callback event
makes no attempt and leaves the exhausted counter exhausted. -/
theorem conn_apply_exhausted (s : ConnState) (e : ConnEvent)
    (hmax : s.sondehub_reconnect_attempts ≥ max_reconnect_attempts)
    (hne : e ≠ ConnEvent.connectCb) :
    (conn_apply s e).2 = false ∧
    (conn_apply s e).1.sondehub_reconnect_attempts ≥ max_reconnect_attempts := by
  cases e with
  | connectCb => exact absurd rfl hne
  | disconnectCb => exact ⟨rfl, hmax⟩
  | reconnect success =>
    have hstep : reconnect_step s = none := by
      unfold reconnect_step
      rw [if_pos hmax]
    simp only [conn_apply, hstep]
    exact ⟨trivial, hmax⟩

/-- Claim C8: reconnection delay is `base_delay * 2 ^ attempt` with the
counter incremented on the attempt (so on each failure) and reset to 0 by
the successful-connect callback; once the counter reaches
`max_attempts = 10` no further attempt is ever made (in any event sequence
free of successful-connect callbacks); a connect callback sets connected
and resets the counter, a disconnect callback clears connected without
touching the counter. -/
theorem C8_reconnect_backoff :
    max_reconnect_attempts = 10 ∧
    (∀ s : ConnState, s.sondehub_reconnect_attempts < max_reconnect_attempts →
      reconnect_step s = some (reconnect_delay * 2 ^ s.sondehub_reconnect_attempts,
        { s with sondehub_reconnect_attempts := s.sondehub_reconnect_attempts + 1 })) ∧
    (∀ s : ConnState, s.sondehub_reconnect_attempts ≥ max_reconnect_attempts →
      reconnect_step s = none) ∧
    (∀ s : ConnState, s.sondehub_reconnect_attempts < max_reconnect_attempts →
      (conn_apply s (ConnEvent.reconnect false)).1.sondehub_reconnect_attempts =
        s.sondehub_reconnect_attempts + 1 ∧
      (conn_apply s (ConnEvent.reconnect false)).1.sondehub_connected = false) ∧
    (∀ (s : ConnState) (b : Bool),
      (conn_apply (conn_apply s (ConnEvent.reconnect b)).1
        ConnEvent.connectCb).1.sondehub_reconnect_attempts = 0) ∧
    (∀ s : ConnState, (on_connect s).sondehub_connected = true ∧
      (on_connect s).sondehub_reconnect_attempts = 0) ∧
    (∀ s : ConnState, (on_disconnect s).sondehub_connected = false ∧
      (on_disconnect s).sondehub_reconnect_attempts = s.sondehub_reconnect_attempts) ∧
    (∀ (s : ConnState) (evs : List ConnEvent),
      s.sondehub_reconnect_attempts ≥ max_reconnect_attempts →
      (∀ e ∈ evs, e ≠ ConnEvent.connectCb) → (conn_run s evs).2 = 0) := by
  refine ⟨rfl, ?_, ?_, ?_, ?_, ?_, ?_, ?_⟩
  · intro s h
    unfold reconnect_step
    rw [if_neg (not_le.mpr h)]
  · intro s h
    unfold reconnect_step
    rw [if_pos h]
  · intro s h
    have hstep : reconnect_step s =
        some (reconnect_delay * 2 ^ s.sondehub_reconnect_attempts,
          { s with sondehub_reconnect_attempts := s.sondehub_reconnect_attempts + 1 }) := by
      unfold reconnect_step
      rw [if_neg (not_le.mpr h)]
    simp only [conn_apply, hstep, Bool.false_eq_true, if_false]
    exact ⟨trivial, trivial⟩
  · intro s b
    rfl
  · intro s
    exact ⟨rfl, rfl⟩
  · intro s
    exact ⟨rfl, rfl⟩
  · intro s evs hmax hno
    induction evs generalizing s with
    | nil => rfl
    | cons e rest ih =>
      have he := conn_apply_exhausted s e hmax (hno e (List.mem_cons_self e rest))
      show (if (conn_apply s e).2 then 1 else 0) +
        (conn_run (conn_apply s e).1 rest).2 = 0
      rw [he.1, ih (conn_apply s e).1 he.2 (fun x hx => hno x (List.mem_cons_of_mem e hx))]
      simp


/-- Witness for C8: from 3 prior attempts the next delay is 30 * 2 ^ 3 and
the counter moves to 4; a failed attempt increments; success plus the
connect callback resets to 0; the disconnect callback keeps the counter;
at 10 attempts a whole callback-free event sequence makes zero attempts. -/
theorem C8_reconnect_backoff_witness :
    (ConnState.mk false 3).sondehub_reconnect_attempts < max_reconnect_attempts ∧
    reconnect_step (ConnState.mk false 3) =
      some (reconnect_delay * 2 ^ 3, ConnState.mk false 4) ∧
    ((conn_apply (ConnState.mk false 3) (ConnEvent.reconnect false)).1.sondehub_reconnect_attempts
        = 4 ∧
      (conn_apply (ConnState.mk false 3) (ConnEvent.reconnect false)).1.sondehub_connected
        = false) ∧
    (conn_apply (conn_apply (ConnState.mk false 3) (ConnEvent.reconnect true)).1
      ConnEvent.connectCb).1.sondehub_reconnect_attempts = 0 ∧
    (on_disconnect (ConnState.mk true 7)).sondehub_reconnect_attempts = 7 ∧
    (ConnState.mk false 10).sondehub_reconnect_attempts ≥ max_reconnect_attempts ∧
    (∀ e ∈ [ConnEvent.reconnect true, ConnEvent.disconnectCb, ConnEvent.reconnect false],
      e ≠ ConnEvent.connectCb) ∧
    (conn_run (ConnState.mk false 10)
      [ConnEvent.reconnect true, ConnEvent.disconnectCb, ConnEvent.reconnect false]).2 = 0 := by
  refine ⟨by norm_num [max_reconnect_attempts],
    C8_reconnect_backoff.2.1 (ConnState.mk false 3) (by norm_num [max_reconnect_attempts]),
    C8_reconnect_backoff.2.2.2.1 (ConnState.mk false 3) (by norm_num [max_reconnect_attempts]),
    C8_reconnect_backoff.2.2.2.2.1 (ConnState.mk false 3) true,
    (C8_reconnect_backoff.2.2.2.2.2.2.1 (ConnState.mk true 7)).2,
    by norm_num [max_reconnect_attempts],
    by decide,
    C8_reconnect_backoff.2.2.2.2.2.2.2 (ConnState.mk false 10)
      [ConnEvent.reconnect true, ConnEvent.disconnectCb, ConnEvent.reconnect false]
      (by norm_num [max_reconnect_attempts]) (by decide)⟩

/-- Claim C10: a report carrying an `rs41_subframe` value longer than 1000
is dropped before any state access: the state comes back untouched (the
cleanup sweep is skipped too), and no history record or notification is
emitted. -/
theorem C10_rs41_guard (cfg : MonitoringConfig) (ns : NotificationSettings)
    (now : ℚ) (s : NotifierState) (d : SondeData) (sub : String)
    (hsub : d.rs41_subframe = some sub) (hlen : sub.length > 1000) :
    process_sonde_data cfg ns now s d = ⟨s, [], []⟩ := by
  have hguard : rs41_large d.rs41_subframe = true := by
    rw [hsub]
    exact decide_eq_true hlen
  unfold process_sonde_data
  cases hd : d.serial with
  | none => rfl
  | some serial =>
    by_cases hse : serial = ""
    · subst hse
      rfl
    · simp [hse, hguard]

/-- Updating the tracking entry of a serial present in the store. -/
theorem update_tracking_some (store : String → Option SondeEntry) (serial : String)
    (lat lon : ℝ) (alt now st : ℚ) (d : Bool) (vv : ℚ) (e : SondeEntry)
    (he : store serial = some e) :
    update_tracking store serial lat lon alt now st d vv serial =
      some { e with
              last_position := (lat, lon)
              last_altitude := alt
              last_update_time := now
              last_sonde_time := st
              is_descending := d
              vertical_velocity := vv } := by
  unfold update_tracking
  rw [he]
  simp

/-- After `emit_event`, the processed serial's entry is the refreshed one,
unless the cleanup sweep evicts it by age of `first_detected`. -/
theorem emit_event_store_cases (ns : NotificationSettings) (now : ℚ)
    (s : NotifierState) (serial : String) (lat lon : ℝ) (alt st vv : ℚ)
    (d : Bool) (et : String) (e : SondeEntry)
    (he : s.detected_sonde serial = some e) :
    (emit_event ns now s serial lat lon alt st vv d et).state.detected_sonde serial =
      if now - e.first_detected > 86400 then none
      else some { e with
                   last_position := (lat, lon)
                   last_altitude := alt
                   last_update_time := now
                   last_sonde_time := st
                   is_descending := d
                   vertical_velocity := vv } := by
  unfold emit_event cleanup_old_entries
  dsimp only
  rw [update_tracking_some s.detected_sonde serial lat lon alt now st d vv e he]

/-- The tracking entry created by the "initial" branch of
`process_sonde_data`. -/
def initial_entry (now : ℚ) (lat lon : ℝ) (alt st : ℚ) (d : Bool) (vv : ℚ) :
    SondeEntry :=
  { first_detected := now
    last_position := (lat, lon)
    last_altitude := alt
    last_update_time := now
    last_sonde_time := st
    is_descending := d
    vertical_velocity := vv
    altitude_history := [] }

/-- Outcome of the qualifying branch for an untracked serial: an "initial"
history record, an "initial" notification, and a freshly created tracking
entry (which the cleanup sweep cannot evict, its age being zero). -/
theorem process_qualifying_untracked (ns : NotificationSettings) (now : ℚ)
    (s : NotifierState) (serial : String) (lat lon : ℝ) (alt st vv : ℚ)
    (hun : s.detected_sonde serial = none) :
    (process_qualifying ns now s serial lat lon alt st vv).history_events =
      [(serial, "initial")] ∧
    (process_qualifying ns now s serial lat lon alt st vv).notifications =
      [(serial, "initial")] ∧
    (process_qualifying ns now s serial lat lon alt st vv).state.detected_sonde serial =
      some (initial_entry now lat lon alt st
        (descent_verdict s.detected_sonde serial alt now st vv) vv) := by
  have hq : process_qualifying ns now s serial lat lon alt st vv =
      emit_event ns now
        { s with
            detected_sonde := fun k =>
              if k = serial then
                            some (initial_entry now lat lon alt st
                                          (descent_verdict s.detected_sonde serial alt now st vv) vv)
              else s.detected_sonde k }
        serial lat lon alt st vv
        (descent_verdict s.detected_sonde serial alt now st vv) "initial" := by
    unfold process_qualifying
    rw [hun]
    rfl
  rw [hq]
  refine ⟨rfl, rfl, ?_⟩
  rw [emit_event_store_cases _ _ _ _ _ _ _ _ _ _ _
    (initial_entry now lat lon alt st
      (descent_verdict s.detected_sonde serial alt now st vv) vv) (by simp)]
  rw [if_neg (by simp [initial_entry] : ¬ (now -
    (initial_entry now lat lon alt st
      (descent_verdict s.detected_sonde serial alt now st vv) vv).first_detected > 86400))]
  rfl

/-- Outcome of the qualifying branch for a tracked serial at altitude
below 100: `emit_event` fires with event "landing" and the descending flag
forced to `true`. -/
theorem process_qualifying_tracked_landing (ns : NotificationSettings) (now : ℚ)
    (s : NotifierState) (serial : String) (lat lon : ℝ) (alt st vv : ℚ)
    (e0 : SondeEntry) (he : s.detected_sonde serial = some e0) (halt : alt < 100) :
    process_qualifying ns now s serial lat lon alt st vv =
      emit_event ns now s serial lat lon alt st vv true "landing" := by
  unfold process_qualifying
  rw [he]
  show (if alt < 100 then emit_event ns now s serial lat lon alt st vv true "landing"
    else _) = _
  rw [if_pos halt]

/-- Outcome of the qualifying branch for a tracked serial at altitude at
least 100 classified as descending: `emit_event` fires with "update". -/
theorem process_qualifying_tracked_update (ns : NotificationSettings) (now : ℚ)
    (s : NotifierState) (serial : String) (lat lon : ℝ) (alt st vv : ℚ)
    (e0 : SondeEntry) (he : s.detected_sonde serial = some e0) (halt : ¬ alt < 100)
    (hdesc : descent_verdict s.detected_sonde serial alt now st vv = true) :
    process_qualifying ns now s serial lat lon alt st vv =
      emit_event ns now s serial lat lon alt st vv
        (descent_verdict s.detected_sonde serial alt now st vv) "update" := by
  unfold process_qualifying
  rw [he]
  show (if alt < 100 then _
    else if descent_verdict s.detected_sonde serial alt now st vv = true then
      emit_event ns now s serial lat lon alt st vv
        (descent_verdict s.detected_sonde serial alt now st vv) "update"
    else _) = _
  rw [if_neg halt, if_pos hdesc]

/-- Outcome of the qualifying branch for a tracked serial at altitude at
least 100 not classified as descending: a silent refresh of the tracking
entry, with no history record, no notification, and no cleanup sweep. -/
theorem process_qualifying_tracked_silent (ns : NotificationSettings) (now : ℚ)
    (s : NotifierState) (serial : String) (lat lon : ℝ) (alt st vv : ℚ)
    (e0 : SondeEntry) (he : s.detected_sonde serial = some e0) (halt : ¬ alt < 100)
    (hdesc : descent_verdict s.detected_sonde serial alt now st vv = false) :
    process_qualifying ns now s serial lat lon alt st vv =
      ⟨{ s with detected_sonde := (update_tracking s.detected_sonde serial lat lon alt
          now st (descent_verdict s.detected_sonde serial alt now st vv) vv) },
        [], []⟩ := by
  unfold process_qualifying
  rw [he]
  show (if alt < 100 then _
    else if descent_verdict s.detected_sonde serial alt now st vv = true then _
    else (⟨{ s with detected_sonde := (update_tracking s.detected_sonde serial lat lon
        alt now st (descent_verdict s.detected_sonde serial alt now st vv) vv) },
        [], []⟩ : ProcessResult)) = _
  rw [if_neg halt, if_neg (by simp [hdesc])]

/-- Claim C1: an entity absent from the tracking store gets, on its first
report passing the radius+altitude gate, an "initial" event — never
"update" or "landing", whatever the descent classifier says and whatever
the altitude (in particular below 100 m) — and its tracking entry is
created. -/
theorem C1_first_qualifying_is_initial (cfg : MonitoringConfig)
    (ns : NotificationSettings) (now : ℚ) (s : NotifierState) (serial : String)
    (lat lon : ℝ) (alt sonde_time : ℚ) (vv : Option ℚ) (rs : Option String)
    (hser : ¬ serial = "") (hrs : rs41_large rs = false)
    (hr : (is_within_radius cfg lat lon).1)
    (ha : is_within_altitude cfg (some alt) = true)
    (hun : s.detected_sonde serial = none) :
    (process_sonde_data cfg ns now s
      ⟨some serial, some lat, some lon, some alt, some sonde_time, vv, rs⟩).history_events
      = [(serial, "initial")] ∧
    (process_sonde_data cfg ns now s
      ⟨some serial, some lat, some lon, some alt, some sonde_time, vv, rs⟩).notifications
      = [(serial, "initial")] ∧
    ∃ e, (process_sonde_data cfg ns now s
      ⟨some serial, some lat, some lon, some alt, some sonde_time, vv, rs⟩).state.detected_sonde
        serial = some e ∧ e.first_detected = now := by
  rw [process_eq_qualifying cfg ns now s serial lat lon alt sonde_time vv rs hser hrs hr ha]
  obtain ⟨h1, h2, h3⟩ := process_qualifying_untracked ns now s serial lat lon alt
    sonde_time (vv.getD 0) hun
  exact ⟨h1, h2, _, h3, rfl⟩

/-- Witness for C1: a fresh serial "W1" at the center of `cfg0`, at 50 m —
below the landing threshold — with no descent indication, still classifies
as "initial" and creates the tracking entry. -/
theorem C1_first_qualifying_is_initial_witness :
    state0.detected_sonde "W1" = none ∧ (50 : ℚ) < 100 ∧
    ((process_sonde_data cfg0 ns0 1000 state0
        ⟨some "W1", some 0, some 0, some 50, some 0, some 0, none⟩).history_events
        = [("W1", "initial")] ∧
      (process_sonde_data cfg0 ns0 1000 state0
        ⟨some "W1", some 0, some 0, some 50, some 0, some 0, none⟩).notifications
        = [("W1", "initial")] ∧
      ∃ e, (process_sonde_data cfg0 ns0 1000 state0
        ⟨some "W1", some 0, some 0, some 50, some 0, some 0, none⟩).state.detected_sonde
          "W1" = some e ∧ e.first_detected = 1000) :=
  ⟨rfl, by norm_num,
    C1_first_qualifying_is_initial cfg0 ns0 1000 state0 "W1" 0 0 50 0 (some 0) none
      (by decide) rfl cfg0_radius_ok (by norm_num [is_within_altitude, cfg0]) rfl⟩

/-- Claim C2: a tracked entity's qualifying report with altitude below
100 m classifies as "landing" with the stored descending flag forced to
`true` — even when neither the velocity signal nor the rate signal says
descending — and, unless the eviction rule bites, the tracking entry
survives the event. -/
theorem C2_tracked_low_altitude_is_landing (cfg : MonitoringConfig)
    (ns : NotificationSettings) (now : ℚ) (s : NotifierState) (serial : String)
    (lat lon : ℝ) (alt sonde_time : ℚ) (vv : Option ℚ) (rs : Option String)
    (e0 : SondeEntry)
    (hser : ¬ serial = "") (hrs : rs41_large rs = false)
    (hr : (is_within_radius cfg lat lon).1)
    (ha : is_within_altitude cfg (some alt) = true)
    (he : s.detected_sonde serial = some e0) (halt : alt < 100)
    (hfresh : now - e0.first_detected ≤ 86400) :
    (process_sonde_data cfg ns now s
      ⟨some serial, some lat, some lon, some alt, some sonde_time, vv, rs⟩).history_events
      = [(serial, "landing")] ∧
    (process_sonde_data cfg ns now s
      ⟨some serial, some lat, some lon, some alt, some sonde_time, vv, rs⟩).notifications
      = [(serial, "landing")] ∧
    ∃ e, (process_sonde_data cfg ns now s
      ⟨some serial, some lat, some lon, some alt, some sonde_time, vv, rs⟩).state.detected_sonde
        serial = some e ∧ e.is_descending = true ∧ e.first_detected = e0.first_detected := by
  rw [process_eq_qualifying cfg ns now s serial lat lon alt sonde_time vv rs hser hrs hr ha]
  rw [process_qualifying_tracked_landing ns now s serial lat lon alt sonde_time
    (vv.getD 0) e0 he halt]
  refine ⟨rfl, rfl, ?_⟩
  rw [emit_event_store_cases ns now s serial lat lon alt sonde_time (vv.getD 0)
    true "landing" e0 he]
  rw [if_neg (not_lt.mpr hfresh)]
  exact ⟨_, rfl, rfl, rfl⟩

/-- A tracked entry for the C2 witness: first detected at time 0, last
altitude 50 m at source time 0, not descending. -/
def entryC2 : SondeEntry :=
  { first_detected := 0, last_position := (0, 0), last_altitude := 50,
    last_update_time := 0, last_sonde_time := 0, is_descending := false,
    vertical_velocity := 0, altitude_history := [] }

/-- A state tracking serial "W2" with `entryC2`. -/
def stateC2 : NotifierState :=
  { detected_sonde := fun k => if k = "W2" then some entryC2 else none
    last_notification_time := fun _ => none }

/-- Witness for C2: serial "W2", tracked, reports 50 m at the center with
vertical velocity 0 and a 50→50 m change over 600 s, so both descent
signals say "not descending" — yet the event is "landing" and the stored
flag is forced true, with the entry retained. -/
theorem C2_tracked_low_altitude_is_landing_witness :
    stateC2.detected_sonde "W2" = some entryC2 ∧ (50 : ℚ) < 100 ∧
    (1000 : ℚ) - entryC2.first_detected ≤ 86400 ∧
    descent_verdict stateC2.detected_sonde "W2" 50 1000 600 ((some (0:ℚ)).getD 0) = false ∧
    ((process_sonde_data cfg0 ns0 1000 stateC2
        ⟨some "W2", some 0, some 0, some 50, some 600, some 0, none⟩).history_events
        = [("W2", "landing")] ∧
      (process_sonde_data cfg0 ns0 1000 stateC2
        ⟨some "W2", some 0, some 0, some 50, some 600, some 0, none⟩).notifications
        = [("W2", "landing")] ∧
      ∃ e, (process_sonde_data cfg0 ns0 1000 stateC2
        ⟨some "W2", some 0, some 0, some 50, some 600, some 0, none⟩).state.detected_sonde
          "W2" = some e ∧ e.is_descending = true ∧
          e.first_detected = entryC2.first_detected) :=
  ⟨rfl, by norm_num, by norm_num [entryC2],
    by norm_num [descent_verdict, is_descending, stateC2, entryC2],
    C2_tracked_low_altitude_is_landing cfg0 ns0 1000 stateC2 "W2" 0 0 50 600 (some 0)
      none entryC2 (by decide) rfl cfg0_radius_ok
      (by norm_num [is_within_altitude, cfg0]) rfl (by norm_num)
      (by norm_num [entryC2])⟩

/-- After the qualifying branch processes a tracked serial, the serial's
stored altitude history is unchanged (whatever the branch), unless the
entry was evicted. -/
theorem process_qualifying_history_tracked (ns : NotificationSettings) (now : ℚ)
    (s : NotifierState) (serial : String) (lat lon : ℝ) (alt st vv : ℚ)
    (e0 : SondeEntry) (he : s.detected_sonde serial = some e0) :
    ((process_qualifying ns now s serial lat lon alt st vv).state.detected_sonde serial
      = none) ∨
    ((process_qualifying ns now s serial lat lon alt st vv).state.detected_sonde
      serial).map (fun x => x.altitude_history) = some e0.altitude_history := by
  by_cases halt : alt < 100
  · rw [process_qualifying_tracked_landing ns now s serial lat lon alt st vv e0 he halt]
    rw [emit_event_store_cases ns now s serial lat lon alt st vv true "landing" e0 he]
    by_cases hold : now - e0.first_detected > 86400
    · left
      rw [if_pos hold]
    · right
      rw [if_neg hold]
      rfl
  · by_cases hdesc : descent_verdict s.detected_sonde serial alt now st vv = true
    · rw [process_qualifying_tracked_update ns now s serial lat lon alt st vv e0 he
        halt hdesc]
      rw [emit_event_store_cases ns now s serial lat lon alt st vv _ "update" e0 he]
      by_cases hold : now - e0.first_detected > 86400
      · left
        rw [if_pos hold]
      · right
        rw [if_neg hold]
        rfl
    · have hdesc2 : descent_verdict s.detected_sonde serial alt now st vv = false := by
        simpa using hdesc
      rw [process_qualifying_tracked_silent ns now s serial lat lon alt st vv e0 he
        halt hdesc2]
      right
      show ((update_tracking s.detected_sonde serial lat lon alt now st
        (descent_verdict s.detected_sonde serial alt now st vv) vv) serial).map
          (fun x => x.altitude_history) = some e0.altitude_history
      rw [update_tracking_some s.detected_sonde serial lat lon alt now st _ vv e0 he]
      rfl

/-- The trend-analysis routine, when invoked, caps the stored history at 10
samples and keeps the newest sample last. -/
theorem analyze_trend_bound (store : String → Option SondeEntry) (serial : String)
    (e : SondeEntry) (ca ct now : ℚ) (he : store serial = some e)
    (hlen : e.altitude_history.length ≤ 10) :
    ∃ e1, (analyze_sonde_trend store serial (some ca) (some ct) now).1 serial
        = some e1 ∧
      e1.altitude_history.length ≤ 10 ∧
      e1.altitude_history.getLast? = some ⟨ca, ct, now⟩ := by
  have hfst : (analyze_sonde_trend store serial (some ca) (some ct) now).1 =
      fun k => if k = serial then
        some { e with
                altitude_history := (trend_append e.altitude_history ⟨ca, ct, now⟩) }
      else store k := by
    unfold analyze_sonde_trend
    rw [he]
    dsimp only
    split
    · rfl
    · split
      · rfl
      · rfl
  refine ⟨{ e with
             altitude_history := (trend_append e.altitude_history ⟨ca, ct, now⟩) },
    ?_, ?_, ?_⟩
  · rw [hfst]
    simp
  · show (trend_append e.altitude_history ⟨ca, ct, now⟩).length ≤ 10
    unfold trend_append
    dsimp only
    split
    · rename_i hgt
      rw [List.length_tail]
      simp only [List.length_append, List.length_singleton] at hgt ⊢
      omega
    · rename_i hgt
      simp only [not_lt, List.length_append, List.length_singleton] at hgt
      simp only [List.length_append, List.length_singleton]
      omega
  · show (trend_append e.altitude_history ⟨ca, ct, now⟩).getLast? = some ⟨ca, ct, now⟩
    unfold trend_append
    dsimp only
    split
    · rename_i hgt
      cases hhist : e.altitude_history with
      | nil =>
        rw [hhist] at hgt
        simp at hgt
      | cons x xs =>
        simp [List.getLast?_concat]
    · simp [List.getLast?_concat]

/-- Claim C9 (amended): the trend-analysis helper `analyze_sonde_trend`
does maintain a bounded history of at most 10 (altitude, timestamp)
samples ending with the newest one — but nothing in the report-processing
pipeline ever calls it, so after a qualifying report is processed the
entity's stored altitude history is exactly what it was before (empty for
a newly created entity); in particular it never exceeds 10 entries, yet it
does not receive the report's sample. -/
theorem C9_history_bound_amended :
    (∀ (store : String → Option SondeEntry) (serial : String) (e : SondeEntry)
      (ca ct now : ℚ), store serial = some e → e.altitude_history.length ≤ 10 →
      ∃ e1, (analyze_sonde_trend store serial (some ca) (some ct) now).1 serial
          = some e1 ∧
        e1.altitude_history.length ≤ 10 ∧
        e1.altitude_history.getLast? = some ⟨ca, ct, now⟩) ∧
    (∀ (ns : NotificationSettings) (now : ℚ) (s : NotifierState) (serial : String)
      (lat lon : ℝ) (alt st vv : ℚ),
      ((process_qualifying ns now s serial lat lon alt st vv).state.detected_sonde
        serial = none) ∨
      ((process_qualifying ns now s serial lat lon alt st vv).state.detected_sonde
        serial).map (fun x => x.altitude_history) =
        some ((s.detected_sonde serial).elim [] (fun x => x.altitude_history))) := by
  constructor
  · exact fun store serial e ca ct now => analyze_trend_bound store serial e ca ct now
  · intro ns now s serial lat lon alt st vv
    cases he : s.detected_sonde serial with
    | none =>
      right
      rw [(process_qualifying_untracked ns now s serial lat lon alt st vv he).2.2]
      rfl
    | some e0 =>
      rcases process_qualifying_history_tracked ns now s serial lat lon alt st vv e0 he
        with h | h
      · left
        exact h
      · right
        rw [h]
        rfl

/-- A qualifying report for serial "S9" used by the C9 counterexample. -/
def reportC9 : SondeData :=
  ⟨some "S9", some 0, some 0, some 5000, some 0, some 0, none⟩

/-- Counterexample to C9 as stated: a qualifying report for the fresh
serial "S9" carrying altitude 5000 m is processed and classified "initial",
yet afterwards the entity's stored altitude history is empty — it does not
contain the just-processed sample, because the pipeline never calls the
trend-analysis routine. -/
theorem C9_history_counterexample :
    (process_sonde_data cfg0 ns0 1000 state0 reportC9).history_events
      = [("S9", "initial")] ∧
    ((process_sonde_data cfg0 ns0 1000 state0 reportC9).state.detected_sonde
      "S9").map (fun x => x.altitude_history) = some [] := by
  have hrep : reportC9 = ⟨some "S9", some 0, some 0, some 5000, some 0, some 0, none⟩ :=
    rfl
  rw [hrep, process_eq_qualifying cfg0 ns0 1000 state0 "S9" 0 0 5000 0 (some 0) none
    (by decide) rfl cfg0_radius_ok (by norm_num [is_within_altitude, cfg0])]
  obtain ⟨h1, h2, h3⟩ := process_qualifying_untracked ns0 1000 state0 "S9" 0 0 5000 0
    ((some (0:ℚ)).getD 0) rfl
  exact ⟨h1, by rw [h3]; rfl⟩

/-- Witness for the amended C9: invoking the trend helper on serial "A"
with sample (7000 m, t=60) received at 1000 yields a history of at most 10
entries ending with that sample. -/
theorem C9_history_bound_amended_witness :
    storeA "A" = some entryA ∧ entryA.altitude_history.length ≤ 10 ∧
    ∃ e1, (analyze_sonde_trend storeA "A" (some 7000) (some 60) 1000).1 "A"
        = some e1 ∧
      e1.altitude_history.length ≤ 10 ∧
      e1.altitude_history.getLast? = some ⟨7000, 60, 1000⟩ :=
  ⟨rfl, by simp [entryA],
    C9_history_bound_amended.1 storeA "A" entryA 7000 60 1000 rfl (by simp [entryA])⟩

/-- An oversized `rs41_subframe` payload (1001 characters). -/
def bigSubframe : String := String.mk (List.replicate 1001 (Char.ofNat 97))

/-- An otherwise fully qualifying report carrying the oversized subframe. -/
def reportC10 : SondeData :=
  ⟨some "T1", some 0, some 0, some 5000, some 0, some 0, some bigSubframe⟩

/-- Witness for C10: the report for "T1" would pass every other gate, but
its 1001-character `rs41_subframe` makes processing drop it with the state
untouched and nothing emitted. -/
theorem C10_rs41_guard_witness :
    reportC10.rs41_subframe = some bigSubframe ∧ bigSubframe.length > 1000 ∧
    process_sonde_data cfg0 ns0 1000 state0 reportC10 = ⟨state0, [], []⟩ := by
  have hlen : bigSubframe.length > 1000 := by
    show (List.replicate 1001 (Char.ofNat 97)).length > 1000
    rw [List.length_replicate]
    norm_num
  exact ⟨rfl, hlen, C10_rs41_guard cfg0 ns0 1000 state0 reportC10 bigSubframe rfl hlen⟩

end Radiosonde
